import Mathlib

/-!
Shallow embedding of the style-resolution-and-paint layer of the blitz
renderer (src/util.rs, src/text/font_size.rs, src/text/font_style.rs,
src/text/text_style.rs, src/render.rs).

Rust `f32` values are modelled as rationals (`ℚ`); no claim under
verification depends on floating-point rounding.  Rust code paths that
panic (`unwrap`, `todo!`, `unreachable!`) are modelled as `Option`
(`none` = panic) or `Except PassError` where the panic signals an
internal-consistency violation.  Rust's derived `PartialEq` on style
records is modelled by executable `beq` functions.
-/

namespace Blitz

/-- taffy `Size<u32>`: the viewport size in integer pixels. -/
structure ViewportSize where
  width : ℕ
  height : ℕ
deriving DecidableEq, Repr

/-- `ComputedFontSize(pub f32)` from src/text/font_style.rs. -/
structure ComputedFontSize where
  v : ℚ
deriving DecidableEq, Repr

/-- `DEFAULT_FONT_SIZE: ComputedFontSize = ComputedFontSize(16.0)`. -/
def DEFAULT_FONT_SIZE : ComputedFontSize := ⟨16⟩

/-- `lightningcss::values::length::LengthValue`, restricted to the unit
constructors the repository's `Resolve` impl handles explicitly
(src/util.rs lines 124-133); the remaining absolute units fall through to
`to_px` and are not exercised by any claim. -/
inductive LengthValue where
  | Px (v : ℚ)
  | Vw (v : ℚ)
  | Vh (v : ℚ)
  | Vmin (v : ℚ)
  | Vmax (v : ℚ)
  | Rem (v : ℚ)
  | Em (v : ℚ)
deriving DecidableEq, Repr

/-- `impl Resolve for LengthValue` (src/util.rs lines 116-135).
`Rem` multiplies by the `font_size` argument; `Em` multiplies by the
constant `DEFAULT_FONT_SIZE`. -/
def LengthValue.resolve (l : LengthValue) (_container_size : ℚ)
    (font_size : ComputedFontSize) (viewport_size : ViewportSize) : ℚ :=
  match l with
  | .Px px => px
  | .Vw vw => vw * (viewport_size.width : ℚ) / 100
  | .Vh vh => vh * (viewport_size.height : ℚ) / 100
  | .Vmin vmin => vmin * ((min viewport_size.height viewport_size.width : ℕ) : ℚ) / 100
  | .Vmax vmax => vmax * ((max viewport_size.height viewport_size.width : ℕ) : ℚ) / 100
  | .Rem v => v * font_size.v
  | .Em v => v * DEFAULT_FONT_SIZE.v

-- `lightningcss::values::length::Length`, `Calc<Length>` and
-- `MathFunction<Length>` (monomorphised at `T = Length`, as rustc
-- does): the length expression union the Unit Resolution Engine
-- resolves for border widths.  `MathFunLength.other` stands for the
-- remaining `MathFunction` variants, all of which hit the `todo!()`
-- arm of the dispatch in src/util.rs line 95.
mutual
inductive Length where
  | value (v : LengthValue)
  | calc (c : CalcLength)

inductive CalcLength where
  | value (v : Length)
  | number (n : ℚ)
  | sum (a b : CalcLength)
  | product (s : ℚ) (b : CalcLength)
  | function (f : MathFunLength)

inductive MathFunLength where
  | calc (c : CalcLength)
  | minF (args : List CalcLength)
  | maxF (args : List CalcLength)
  | clamp (mn val mx : CalcLength)
  | other
end

/-- Rust `Iterator::min_by(partial_cmp.unwrap).unwrap()` over already
resolved rationals: `none` models the panic on an empty list (over ℚ the
comparison itself is total, so only emptiness can panic). -/
def listMin : List ℚ → Option ℚ
  | [] => none
  | x :: xs =>
    match listMin xs with
    | none => some x
    | some m => some (min x m)

/-- Rust `Iterator::max_by(partial_cmp.unwrap).unwrap()` analogue. -/
def listMax : List ℚ → Option ℚ
  | [] => none
  | x :: xs =>
    match listMax xs with
    | none => some x
    | some m => some (max x m)

-- `impl Resolve for Length`, `impl<T> Resolve for Calc<T>` and
-- `impl<T> Resolve for MathFunction<T>` (src/util.rs lines 46-98 and
-- 137-149), at `T = Length`.  `none` models a panic: the `unwrap` on
-- an empty `Min`/`Max` argument list, or the `todo!()` for an
-- unsupported calc function.
mutual
def Length.resolve (l : Length) (container_size : ℚ)
    (font_size : ComputedFontSize) (viewport_size : ViewportSize) : Option ℚ :=
  match l with
  | .value v => some (v.resolve container_size font_size viewport_size)
  | .calc c => c.resolve container_size font_size viewport_size

def CalcLength.resolve (c : CalcLength) (container_size : ℚ)
    (font_size : ComputedFontSize) (viewport_size : ViewportSize) : Option ℚ :=
  match c with
  | .value v => v.resolve container_size font_size viewport_size
  | .number px => some px
  | .sum v1 v2 => do
    let a ← v1.resolve container_size font_size viewport_size
    let b ← v2.resolve container_size font_size viewport_size
    pure (a + b)
  | .product v1 v2 => do
    let b ← v2.resolve container_size font_size viewport_size
    pure (v1 * b)
  | .function f => f.resolve container_size font_size viewport_size

def MathFunLength.resolve (f : MathFunLength) (container_size : ℚ)
    (font_size : ComputedFontSize) (viewport_size : ViewportSize) : Option ℚ :=
  match f with
  | .calc c => c.resolve container_size font_size viewport_size
  | .minF v => do
    let rs ← CalcLength.resolveList v container_size font_size viewport_size
    listMin rs
  | .maxF v => do
    let rs ← CalcLength.resolveList v container_size font_size viewport_size
    listMax rs
  | .clamp mn val mx => do
    let a ← mn.resolve container_size font_size viewport_size
    let b ← val.resolve container_size font_size viewport_size
    let c ← mx.resolve container_size font_size viewport_size
    pure (max a (min b c))
  | .other => none

def CalcLength.resolveList (l : List CalcLength) (container_size : ℚ)
    (font_size : ComputedFontSize) (viewport_size : ViewportSize) : Option (List ℚ) :=
  match l with
  | [] => some []
  | x :: xs => do
    let r ← x.resolve container_size font_size viewport_size
    let rs ← CalcLength.resolveList xs container_size font_size viewport_size
    pure (r :: rs)
end

/-- `lightningcss::properties::border::BorderSideWidth`. -/
inductive BorderSideWidth where
  | thin
  | medium
  | thick
  | length (l : Length)

/-- `impl Resolve for BorderSideWidth` (src/util.rs lines 100-114). -/
def BorderSideWidth.resolve (w : BorderSideWidth) (container_size : ℚ)
    (font_size : ComputedFontSize) (viewport_size : ViewportSize) : Option ℚ :=
  match w with
  | .thin => some 2
  | .medium => some 4
  | .thick => some 6
  | .length l => l.resolve container_size font_size viewport_size

-- `lightningcss::values::length::LengthPercentage =
-- DimensionPercentage<LengthValue>`, together with
-- `Calc<DimensionPercentage<LengthValue>>` and the corresponding
-- `MathFunction` (monomorphised).  Used for border corner radii and for
-- parsed `font-size` values.
mutual
inductive LengthPercentage where
  | dimension (v : LengthValue)
  | percentage (p : ℚ)
  | calc (c : CalcLP)

inductive CalcLP where
  | value (v : LengthPercentage)
  | number (n : ℚ)
  | sum (a b : CalcLP)
  | product (s : ℚ) (b : CalcLP)
  | function (f : MathFunLP)

inductive MathFunLP where
  | calc (c : CalcLP)
  | minF (args : List CalcLP)
  | maxF (args : List CalcLP)
  | clamp (mn val mx : CalcLP)
  | other
end

-- `impl<T> Resolve for DimensionPercentage<T>` (src/util.rs lines
-- 151-166) and the generic `Calc`/`MathFunction` impls, at
-- `T = LengthValue`.
mutual
def LengthPercentage.resolve (lp : LengthPercentage) (container_size : ℚ)
    (font_size : ComputedFontSize) (viewport_size : ViewportSize) : Option ℚ :=
  match lp with
  | .dimension v => some (v.resolve container_size font_size viewport_size)
  | .percentage p => some (container_size * p)
  | .calc c => c.resolve container_size font_size viewport_size

def CalcLP.resolve (c : CalcLP) (container_size : ℚ)
    (font_size : ComputedFontSize) (viewport_size : ViewportSize) : Option ℚ :=
  match c with
  | .value v => v.resolve container_size font_size viewport_size
  | .number px => some px
  | .sum v1 v2 => do
    let a ← v1.resolve container_size font_size viewport_size
    let b ← v2.resolve container_size font_size viewport_size
    pure (a + b)
  | .product v1 v2 => do
    let b ← v2.resolve container_size font_size viewport_size
    pure (v1 * b)
  | .function f => f.resolve container_size font_size viewport_size

def MathFunLP.resolve (f : MathFunLP) (container_size : ℚ)
    (font_size : ComputedFontSize) (viewport_size : ViewportSize) : Option ℚ :=
  match f with
  | .calc c => c.resolve container_size font_size viewport_size
  | .minF v => do
    let rs ← CalcLP.resolveList v container_size font_size viewport_size
    listMin rs
  | .maxF v => do
    let rs ← CalcLP.resolveList v container_size font_size viewport_size
    listMax rs
  | .clamp mn val mx => do
    let a ← mn.resolve container_size font_size viewport_size
    let b ← val.resolve container_size font_size viewport_size
    let c ← mx.resolve container_size font_size viewport_size
    pure (max a (min b c))
  | .other => none

def CalcLP.resolveList (l : List CalcLP) (container_size : ℚ)
    (font_size : ComputedFontSize) (viewport_size : ViewportSize) : Option (List ℚ) :=
  match l with
  | [] => some []
  | x :: xs => do
    let r ← x.resolve container_size font_size viewport_size
    let rs ← CalcLP.resolveList xs container_size font_size viewport_size
    pure (r :: rs)
end

-- Rust's derived `PartialEq` on the `LengthPercentage` family, modelled
-- as executable structural comparison.
mutual
def LengthPercentage.beq : LengthPercentage → LengthPercentage → Bool
  | .dimension a, .dimension b => a == b
  | .percentage a, .percentage b => a == b
  | .calc a, .calc b => CalcLP.beq a b
  | _, _ => false

def CalcLP.beq : CalcLP → CalcLP → Bool
  | .value a, .value b => LengthPercentage.beq a b
  | .number a, .number b => a == b
  | .sum a1 b1, .sum a2 b2 => CalcLP.beq a1 a2 && CalcLP.beq b1 b2
  | .product s1 b1, .product s2 b2 => s1 == s2 && CalcLP.beq b1 b2
  | .function f1, .function f2 => MathFunLP.beq f1 f2
  | _, _ => false

def MathFunLP.beq : MathFunLP → MathFunLP → Bool
  | .calc a, .calc b => CalcLP.beq a b
  | .minF a, .minF b => CalcLP.beqList a b
  | .maxF a, .maxF b => CalcLP.beqList a b
  | .clamp a1 b1 c1, .clamp a2 b2 c2 =>
      CalcLP.beq a1 a2 && CalcLP.beq b1 b2 && CalcLP.beq c1 c2
  | .other, .other => true
  | _, _ => false

def CalcLP.beqList : List CalcLP → List CalcLP → Bool
  | [], [] => true
  | x :: xs, y :: ys => CalcLP.beq x y && CalcLP.beqList xs ys
  | _, _ => false
end

/-- `dioxus_native_core::node::OwnedAttributeValue`.  All non-`Text`
variants are observed by this layer only through `as_text()` (which
returns `None` on them), so they are collapsed into one constructor. -/
inductive OwnedAttributeValue where
  | text (s : String)
  | nonText
deriving DecidableEq, Repr

/-- `OwnedAttributeValue::as_text`. -/
def OwnedAttributeValue.asText : OwnedAttributeValue → Option String
  | .text s => some s
  | .nonText => none

namespace font

/-- `lightningcss::properties::font::AbsoluteFontSize`. -/
inductive AbsoluteFontSize where
  | xxSmall
  | xSmall
  | small
  | medium
  | large
  | xLarge
  | xxLarge
deriving DecidableEq, Repr

/-- `lightningcss::properties::font::RelativeFontSize`. -/
inductive RelativeFontSize where
  | smaller
  | larger
deriving DecidableEq, Repr

/-- `lightningcss::properties::font::FontSize`. -/
inductive FontSize where
  | length (l : LengthPercentage)
  | absolute (a : AbsoluteFontSize)
  | relative (r : RelativeFontSize)

end font

/-- All-digit character list to a natural number; `none` on the empty
list or any non-digit character. -/
def decimalDigits (cs : List Char) : Option ℕ :=
  match cs with
  | [] => none
  | _ =>
    cs.foldl
      (fun acc c =>
        match acc with
        | none => none
        | some a => if c.isDigit then some (a * 10 + (c.toNat - 48)) else none)
      (some 0)

/-- Split a character list at every dot, like `String.splitOn "."`. -/
def splitDots : List Char → List (List Char)
  | [] => [[]]
  | c :: rest =>
    let ps := splitDots rest
    if c = '.' then [] :: ps
    else
      match ps with
      | [] => [[c]]
      | p :: pr => (c :: p) :: pr

/-- Non-negative decimal literal (`"16"`, `"16.0"`, `"0.5"`) to ℚ. -/
def parseDecimal (cs : List Char) : Option ℚ :=
  match splitDots cs with
  | [whole] => (decimalDigits whole).map (fun n => (n : ℚ))
  | [whole, frac] => do
    let i ← decimalDigits whole
    let f ← decimalDigits frac
    pure ((i : ℚ) + (f : ℚ) / ((10 : ℚ) ^ frac.length))
  | _ => none

/-- Strip a unit suffix from a character list: `some` of the remaining
leading characters when `suf` is a suffix of `cs`, else `none`. -/
def stripUnitSuffix (cs suf : List Char) : Option (List Char) :=
  let n := cs.length
  let k := suf.length
  if k ≤ n && cs.drop (n - k) == suf then some (cs.take (n - k)) else none

/-- Modelled from the spec: the external CSS-value parser
(`lightningcss`, `FontSize::parse_string`) for `font-size` values — the
spec treats values as "assumed already parsed into typed unions" by this
external collaborator.  Restricted to the size keywords and to
non-negative decimal `px`/`em`/`rem`/percentage forms; anything else
parses to `none` (parse failure). -/
def font.FontSize.parseString (s : String) : Option font.FontSize :=
  match s with
  | "xx-small" => some (.absolute .xxSmall)
  | "x-small" => some (.absolute .xSmall)
  | "small" => some (.absolute .small)
  | "medium" => some (.absolute .medium)
  | "large" => some (.absolute .large)
  | "x-large" => some (.absolute .xLarge)
  | "xx-large" => some (.absolute .xxLarge)
  | "smaller" => some (.relative .smaller)
  | "larger" => some (.relative .larger)
  | _ =>
    let cs := s.data
    match stripUnitSuffix cs ['%'] with
    | some rest => (parseDecimal rest).map fun n => .length (.percentage (n / 100))
    | none =>
      match stripUnitSuffix cs ['r', 'e', 'm'] with
      | some rest => (parseDecimal rest).map fun n => .length (.dimension (.Rem n))
      | none =>
        match stripUnitSuffix cs ['e', 'm'] with
        | some rest => (parseDecimal rest).map fun n => .length (.dimension (.Em n))
        | none =>
          match stripUnitSuffix cs ['p', 'x'] with
          | some rest => (parseDecimal rest).map fun n => .length (.dimension (.Px n))
          | none => none

/-- `pub struct FontSize(pub f32)` from src/text/font_size.rs: the
per-node computed font size owned by the cascade. -/
structure FontSize where
  v : ℚ
deriving DecidableEq, Repr

/-- `impl Default for FontSize`: `FontSize(16.0)`. -/
def FontSize.default : FontSize := ⟨16⟩

/-- `impl ParentDepState for FontSize`, `fn reduce`
(src/text/font_size.rs lines 22-74).  The node's masked attribute view
(mask: `["font-size"]`) is modelled as the first matching attribute
value, `node_attr`.  Returns the updated state and the changed flag;
`none` models the `todo!()` panics for unsupported parsed forms. -/
def FontSize.reduce (self : FontSize) (node_attr : Option OwnedAttributeValue)
    (parent : Option FontSize) : Option (FontSize × Bool) :=
  match node_attr with
  | none => some (self, false)
  | some color_attr =>
    match color_attr.asText with
    | none => some (self, false)
    | some as_text =>
      match font.FontSize.parseString as_text with
      | none => some (self, false)
      | some fs =>
        let parentV : ℚ :=
          match parent with
          | some p => p.v
          | none => 16
        let newV : Option ℚ :=
          match fs with
          | .length lp =>
            match lp with
            | .dimension l =>
              match l with
              | .Px size => some size
              | .Em size => some (size * parentV)
              | .Rem size => some (size * 16)
              | _ => none
            | .percentage p => some (parentV * p)
            | .calc _ => none
          | .absolute a =>
            some (match a with
              | .xxSmall => 9
              | .xSmall => 10
              | .small => 13
              | .medium => 16
              | .large => 18
              | .xLarge => 24
              | .xxLarge => 32)
          | .relative r =>
            some (match r with
              | .smaller => parentV - 2
              | .larger => parentV + 2)
        match newV with
        | none => none
        | some newV =>
          if self.v ≠ newV then some (⟨newV⟩, true) else some (self, false)

/-- `lightningcss::properties::font::GenericFontFamily` (main variants). -/
inductive GenericFontFamily where
  | generalDefault
  | serif
  | sansSerif
  | monospace
  | cursive
  | fantasy
deriving DecidableEq, Repr

/-- `OwnedFontFamily` from src/text/font_style.rs lines 153-163. -/
inductive OwnedFontFamily where
  | generic (g : GenericFontFamily)
  | familyName (s : String)
deriving DecidableEq, Repr

/-- `OwnedFontFamily::default()`: `Generic(GenericFontFamily::Default)`. -/
def OwnedFontFamily.default : OwnedFontFamily := .generic .generalDefault

/-- `lightningcss::properties::font::FontStyle`.  This layer only ever
constructs the default; the oblique angle payload is omitted. -/
inductive FontStyle where
  | normal
  | italic
  | oblique
deriving DecidableEq, Repr

/-- `lightningcss::properties::font::AbsoluteFontWeight`. -/
inductive AbsoluteFontWeight where
  | weight (w : ℚ)
  | normal
  | bold
deriving DecidableEq, Repr

/-- `lightningcss::properties::font::FontWeight`. -/
inductive FontWeight where
  | absolute (a : AbsoluteFontWeight)
  | bolder
  | lighter
deriving DecidableEq, Repr

/-- `lightningcss::properties::font::FontStretch`.  This layer only ever
constructs the default; the keyword/percentage payload is collapsed. -/
inductive FontStretch where
  | normal
  | percentage (p : ℚ)
  | otherKeyword
deriving DecidableEq, Repr

/-- `lightningcss::properties::font::LineHeight`. -/
inductive LineHeight where
  | normal
  | number (n : ℚ)
  | length (lp : LengthPercentage)

/-- `lightningcss::properties::font::FontVariantCaps` (main variants). -/
inductive FontVariantCaps where
  | normal
  | smallCaps
  | allSmallCaps
  | petiteCaps
deriving DecidableEq, Repr

/-- Rust derived `PartialEq` for `LineHeight`, executable. -/
def LineHeight.beq : LineHeight → LineHeight → Bool
  | .normal, .normal => true
  | .number a, .number b => a == b
  | .length a, .length b => LengthPercentage.beq a b
  | _, _ => false

/-- `pub struct Font` from src/text/font_style.rs lines 51-60. -/
structure Font where
  family : List OwnedFontFamily
  size : ComputedFontSize
  style : FontStyle
  weight : FontWeight
  stretch : FontStretch
  line_height : LineHeight
  variant_caps : FontVariantCaps

/-- `impl Default for Font` (src/text/font_style.rs lines 62-74). -/
def Font.default : Font :=
  ⟨[OwnedFontFamily.default], DEFAULT_FONT_SIZE, .normal, .absolute .normal,
    .normal, .normal, .normal⟩

/-- Rust derived `PartialEq` for `Font`, executable. -/
def Font.beqRec (a b : Font) : Bool :=
  a.family == b.family && a.size == b.size && a.style == b.style &&
    a.weight == b.weight && a.stretch == b.stretch &&
    LineHeight.beq a.line_height b.line_height && a.variant_caps == b.variant_caps

/-- The fatal error classes of the pass dispatchers: the
`unreachable!()` arm (internal consistency violation, a watched
attribute name with no handler). -/
inductive PassError where
  | internalConsistency
deriving DecidableEq, Repr

/-- The watched attribute set of the Font pass (`Font::NODE_MASK`,
src/text/font_style.rs lines 81-92). -/
def Font.watchedAttrs : List String :=
  ["font", "font-family", "font-size", "font-size-adjust", "font-stretch",
   "font-style", "font-variant", "font-weight"]

/-- The attribute-name dispatch loop of `Font::pass`
(src/text/font_style.rs lines 120-130): for every attribute in the
masked view the dispatch is `match attribute.name.as_str() { _ =>
unreachable!() }` — there are no handled arms, so any attribute at all
reaches the fatal branch. -/
def Font.applyAttrs : Font → List (String × OwnedAttributeValue) → Except PassError Font
  | new, [] => .ok new
  | _, (_name, _value) :: _ => .error .internalConsistency

/-- `impl Pass for Font`, `fn pass` (src/text/font_style.rs lines
94-138).  The tag-heuristic block is present but every arm is commented
out in the source (`_ => ()`), so it is the identity.  `attrs` models
`node_view.attributes()` (masked to `Font.watchedAttrs`). -/
def Font.pass (self : Font) (tag namespaceAttr : Option String)
    (attrs : Option (List (String × OwnedAttributeValue))) :
    Except PassError (Font × Bool) := do
  let new := Font.default
  -- handle text modifier elements: all match arms are commented out
  let new :=
    if namespaceAttr.isNone then
      match tag with
      | some _tagName => new
      | none => new
    else new
  -- gather up all the styles from the attribute list
  let new ←
    match attrs with
    | some l => Font.applyAttrs new l
    | none => pure new
  if !(Font.beqRec new self) then
    pure (new, true)
  else
    pure (self, false)

/-- `lightningcss::properties::text::TextDecorationLine`, a bitflags
set (`underline`, `overline`, `line-through`; the deprecated `blink`
flag is never constructed by this layer). -/
structure TextDecorationLine where
  underline : Bool
  overline : Bool
  lineThrough : Bool
deriving DecidableEq, Repr

/-- `TextDecorationLine::default()`: the empty flag set. -/
def TextDecorationLine.default : TextDecorationLine := ⟨false, false, false⟩

/-- bitflags `insert`: set-union of the flags. -/
def TextDecorationLine.insert (a b : TextDecorationLine) : TextDecorationLine :=
  ⟨a.underline || b.underline, a.overline || b.overline, a.lineThrough || b.lineThrough⟩

/-- The `TextDecorationLine::Underline` singleton flag. -/
def TextDecorationLine.underlineFlag : TextDecorationLine := ⟨true, false, false⟩

/-- The `TextDecorationLine::LineThrough` singleton flag. -/
def TextDecorationLine.lineThroughFlag : TextDecorationLine := ⟨false, false, true⟩

/-- `lightningcss::properties::text::TextDecorationStyle`. -/
inductive TextDecorationStyle where
  | solid
  | double
  | dotted
  | dashed
  | wavy
deriving DecidableEq, Repr

/-- `lightningcss::properties::text::TextDecorationThickness`. -/
inductive TextDecorationThickness where
  | auto
  | fromFont
  | lengthPercentage (v : LengthPercentage)

/-- Rust derived `PartialEq` for `TextDecorationThickness`. -/
def TextDecorationThickness.beq : TextDecorationThickness → TextDecorationThickness → Bool
  | .auto, .auto => true
  | .fromFont, .fromFont => true
  | .lengthPercentage a, .lengthPercentage b => LengthPercentage.beq a b
  | _, _ => false

/-- `lightningcss::values::color::CssColor`: `CurrentColor` (the
default) or an already-converted RGBA value; the other colour spaces
are observed by this layer only through `to_rgb`, modelled as already
applied. -/
inductive CssColor where
  | currentColor
  | rgba (red green blue alpha : ℕ)
deriving DecidableEq, Repr

/-- `pub struct TextDecoration` from src/text/text_style.rs lines
13-19. -/
structure TextDecoration where
  line : TextDecorationLine
  thickness : TextDecorationThickness
  style : TextDecorationStyle
  color : CssColor

/-- `#[derive(Default)]` for `TextDecoration`: every field at its
type's default (`CssColor::default()` is `CurrentColor`). -/
def TextDecoration.default : TextDecoration :=
  ⟨TextDecorationLine.default, .auto, .solid, .currentColor⟩

/-- Rust derived `PartialEq` for `TextDecoration`, executable. -/
def TextDecoration.beqRec (a b : TextDecoration) : Bool :=
  a.line == b.line && TextDecorationThickness.beq a.thickness b.thickness &&
    a.style == b.style && a.color == b.color

/-- Modelled from the spec: the external CSS-value parser for
`text-decoration-line` (single-keyword forms). -/
def parseTextDecorationLine (s : String) : Option TextDecorationLine :=
  match s with
  | "none" => some ⟨false, false, false⟩
  | "underline" => some ⟨true, false, false⟩
  | "overline" => some ⟨false, true, false⟩
  | "line-through" => some ⟨false, false, true⟩
  | _ => none

/-- Modelled from the spec: the external CSS-value parser for
`text-decoration-style`. -/
def parseTextDecorationStyle (s : String) : Option TextDecorationStyle :=
  match s with
  | "solid" => some .solid
  | "double" => some .double
  | "dotted" => some .dotted
  | "dashed" => some .dashed
  | "wavy" => some .wavy
  | _ => none

/-- Modelled from the spec: the external CSS-value parser for colours,
restricted to a few named colours. -/
def parseCssColor (s : String) : Option CssColor :=
  match s with
  | "currentcolor" => some .currentColor
  | "black" => some (.rgba 0 0 0 255)
  | "white" => some (.rgba 255 255 255 255)
  | "red" => some (.rgba 255 0 0 255)
  | "green" => some (.rgba 0 128 0 255)
  | "blue" => some (.rgba 0 0 255 255)
  | _ => none

/-- Modelled from the spec: the external CSS-value parser for
`text-decoration-thickness`. -/
def parseTextDecorationThickness (s : String) : Option TextDecorationThickness :=
  match s with
  | "auto" => some .auto
  | "from-font" => some .fromFont
  | _ =>
    match stripUnitSuffix s.data ['p', 'x'] with
    | some rest => (parseDecimal rest).map fun n => .lengthPercentage (.dimension (.Px n))
    | none => none

/-- Modelled from the spec: the external CSS-value parser for the
`text-decoration` shorthand, restricted to a single line keyword (the
remaining components take their defaults, as in CSS). -/
def parseTextDecorationShorthand (s : String) : Option TextDecoration :=
  (parseTextDecorationLine s).map fun line =>
    ⟨line, .auto, .solid, .currentColor⟩

/-- One iteration of the attribute loop of `TextDecoration::pass`
(src/text/text_style.rs lines 57-103): non-text values are skipped by
the `if let` guard; text values dispatch on the attribute name, with
unparseable values silently ignored and any unwatched name hitting the
`unreachable!()` arm. -/
def TextDecoration.applyAttr (new : TextDecoration)
    (name : String) (value : OwnedAttributeValue) : Except PassError TextDecoration :=
  match value with
  | .nonText => .ok new
  | .text txt =>
    match name with
    | "text-decoration" =>
      match parseTextDecorationShorthand txt with
      | some value => .ok ⟨value.line, value.thickness, value.style, value.color⟩
      | none => .ok new
    | "text-decoration-line" =>
      match parseTextDecorationLine txt with
      | some value => .ok ⟨value, new.thickness, new.style, new.color⟩
      | none => .ok new
    | "text-decoration-color" =>
      match parseCssColor txt with
      | some value => .ok ⟨new.line, new.thickness, new.style, value⟩
      | none => .ok new
    | "text-decoration-style" =>
      match parseTextDecorationStyle txt with
      | some value => .ok ⟨new.line, new.thickness, value, new.color⟩
      | none => .ok new
    | "text-decoration-thickness" =>
      match parseTextDecorationThickness txt with
      | some value => .ok ⟨new.line, value, new.style, new.color⟩
      | none => .ok new
    | _ => .error .internalConsistency

/-- The attribute loop of `TextDecoration::pass`, folded in attribute
order. -/
def TextDecoration.applyAttrs : TextDecoration → List (String × OwnedAttributeValue) →
    Except PassError TextDecoration
  | new, [] => .ok new
  | new, (name, value) :: rest => do
    let new ← TextDecoration.applyAttr new name value
    TextDecoration.applyAttrs new rest

/-- `impl Pass for TextDecoration`, `fn pass` (src/text/text_style.rs
lines 36-111): default record, then the tag heuristic
(`ins`/`u` → underline, `del` → line-through), then the attribute
loop, then the change comparison. -/
def TextDecoration.pass (self : TextDecoration) (tag namespaceAttr : Option String)
    (attrs : Option (List (String × OwnedAttributeValue))) :
    Except PassError (TextDecoration × Bool) := do
  let new := TextDecoration.default
  -- handle text modifier elements
  let new :=
    if namespaceAttr.isNone then
      match tag with
      | some "ins" => ⟨new.line.insert .underlineFlag, new.thickness, new.style, new.color⟩
      | some "u" => ⟨new.line.insert .underlineFlag, new.thickness, new.style, new.color⟩
      | some "del" => ⟨new.line.insert .lineThroughFlag, new.thickness, new.style, new.color⟩
      | _ => new
    else new
  -- gather up all the styles from the attribute list
  let new ←
    match attrs with
    | some l => TextDecoration.applyAttrs new l
    | none => pure new
  if !(TextDecoration.beqRec new self) then
    pure (new, true)
  else
    pure (self, false)

/-- `Axis` from src/util.rs lines 13-21. -/
inductive Axis where
  | X
  | Y
  | Min
  | Max
deriving DecidableEq, Repr

/-- taffy `Size<f32>`. -/
structure SizeF where
  width : ℚ
  height : ℚ
deriving DecidableEq, Repr

/-- `axis_size` from src/util.rs lines 168-175. -/
def axisSize (axis : Axis) (rect : SizeF) : ℚ :=
  match axis with
  | .X => rect.width
  | .Y => rect.height
  | .Min => min rect.width rect.height
  | .Max => max rect.width rect.height

/-- kurbo `Point`. -/
structure Point where
  x : ℚ
  y : ℚ
deriving DecidableEq, Repr

/-- taffy `Layout`: position and size of a laid-out node. -/
structure Layout where
  location : Point
  size : SizeF
deriving DecidableEq, Repr

/-- vello/peniko `Color` (already translated to unit-interval RGBA). -/
structure Color where
  r : ℚ
  g : ℚ
  b : ℚ
  a : ℚ
deriving DecidableEq, Repr

/-- `Color::rgb(1.0, 1.0, 1.0)`, the focus-ring outer stroke colour. -/
def Color.whiteColor : Color := ⟨1, 1, 1, 1⟩

/-- `Color::rgb(0.0, 0.0, 0.0)`, the focus-ring inner stroke colour. -/
def Color.blackColor : Color := ⟨0, 0, 0, 1⟩

/-- `translate_color` from src/util.rs lines 23-35: RGBA components
divided by 255; a colour that `to_rgb` cannot turn into RGBA (here:
`currentColor`) panics ("translation failed"), modelled as `none`. -/
def translateColor (c : CssColor) : Option Color :=
  match c with
  | .rgba red green blue alpha =>
    some ⟨(red : ℚ) / 255, (green : ℚ) / 255, (blue : ℚ) / 255, (alpha : ℚ) / 255⟩
  | .currentColor => none

/-- The four corner radii of a kurbo `RoundedRect` (top-left,
top-right, bottom-right, bottom-left). -/
structure Radii where
  tl : ℚ
  tr : ℚ
  br : ℚ
  bl : ℚ
deriving DecidableEq, Repr

/-- kurbo `RoundedRect`, as the corner coordinates plus radii. -/
structure RRect where
  x0 : ℚ
  y0 : ℚ
  x1 : ℚ
  y1 : ℚ
  radii : Radii
deriving DecidableEq, Repr

/-- Modelled from the spec: the per-edge border widths of the external
`Border` style record (src/style.rs is not part of the sources), in the
same length-expression union the Unit Resolution Engine evaluates; the
field set is fixed by the accesses in `get_shape` and `render_node`. -/
structure BorderWidths where
  top : BorderSideWidth
  right : BorderSideWidth
  bottom : BorderSideWidth
  left : BorderSideWidth

/-- Modelled from the spec: the per-edge border colours of the external
`Border` style record (only `.top` is read by the paint walker). -/
structure BorderColors where
  top : CssColor
  right : CssColor
  bottom : CssColor
  left : CssColor

/-- Modelled from the spec: the per-corner border radii of the external
`Border` style record; `get_shape` reads the `.0` (x) component of each
corner, a `LengthPercentage`. -/
structure BorderRadius where
  top_left : LengthPercentage
  top_right : LengthPercentage
  bottom_right : LengthPercentage
  bottom_left : LengthPercentage

/-- Modelled from the spec: the external `Border` style record consumed
by the Shape/Geometry Resolver. -/
structure Border where
  width : BorderWidths
  colors : BorderColors
  radius : BorderRadius

/-- `FOCUS_BORDER_WIDTH: f64 = 6.0` (src/render.rs line 23). -/
def FOCUS_BORDER_WIDTH : ℚ := 6

/-- `dioxus_native_core::NodeType`, restricted to what the paint walker
distinguishes: text nodes (with contents), element nodes, and the
remaining kinds (placeholders), which are neither painted nor
recursed into. -/
inductive NodeKind where
  | text (contents : String)
  | element
  | placeholder
deriving DecidableEq, Repr

/-- The per-node data the paint walker reads through the node's typed
component storage: the node kind, the layout box (`TaffyLayout`,
unwraps modelled as present), the `Focused` flag, background and
foreground colours, the `Border` record and the `Font` record. -/
structure NodeData where
  kind : NodeKind
  layout : Layout
  focused : Bool
  background : CssColor
  forground : CssColor
  border : Border
  font : Font

/-- The retained tree as seen by the paint walker: per-node data plus
children. -/
inductive Node where
  | node (d : NodeData) (children : List Node)

/-- `get_shape` (src/render.rs lines 129-219): resolve each edge's
border width (overridden by `FOCUS_BORDER_WIDTH` when focused), inset
the box by half of each edge's width, and resolve the four corner
radii against the minimum box axis.  `none` models a panicking
`resolve`. -/
def getShape (layout : Layout) (node : NodeData) (viewport_size : ViewportSize)
    (location : Point) : Option RRect := do
  let axis := Axis.Min
  let rect := layout.size
  let x := location.x
  let y := location.y
  let width := layout.size.width
  let height := layout.size.height
  let border := node.border
  let focused := node.focused
  let font_size := node.font.size
  let left_border_width ←
    if focused then pure FOCUS_BORDER_WIDTH
    else border.width.left.resolve (axisSize axis rect) font_size viewport_size
  let right_border_width ←
    if focused then pure FOCUS_BORDER_WIDTH
    else border.width.right.resolve (axisSize axis rect) font_size viewport_size
  let top_border_width ←
    if focused then pure FOCUS_BORDER_WIDTH
    else border.width.top.resolve (axisSize axis rect) font_size viewport_size
  let bottom_border_width ←
    if focused then pure FOCUS_BORDER_WIDTH
    else border.width.bottom.resolve (axisSize axis rect) font_size viewport_size
  let x_start := x + left_border_width / 2
  let y_start := y + top_border_width / 2
  let x_end := x + width - right_border_width / 2
  let y_end := y + height - bottom_border_width / 2
  let r_tl ← border.radius.top_left.resolve (axisSize axis rect) font_size viewport_size
  let r_tr ← border.radius.top_right.resolve (axisSize axis rect) font_size viewport_size
  let r_br ← border.radius.bottom_right.resolve (axisSize axis rect) font_size viewport_size
  let r_bl ← border.radius.bottom_left.resolve (axisSize axis rect) font_size viewport_size
  pure ⟨x_start, y_start, x_end, y_end, ⟨r_tl, r_tr, r_br, r_bl⟩⟩

/-- The paint commands emitted to the external vello `SceneBuilder`
(`fill`, `stroke`, text-run submission). -/
inductive PaintCommand where
  | fillCmd (color : Color) (shape : RRect)
  | strokeCmd (width : ℚ) (color : Color) (shape : RRect)
  | textCmd (font_size : ℚ) (color : Color) (pos : Point) (contents : String)
deriving DecidableEq, Repr

/-- `RoundedRect::from_rect(shape.rect() inset by half the focus border
width, shape.radii())` — the inner rounded rect of the focus ring
(src/render.rs lines 87-92). -/
def focusInnerShape (shape : RRect) : RRect :=
  ⟨shape.x0 + FOCUS_BORDER_WIDTH / 2, shape.y0 + FOCUS_BORDER_WIDTH / 2,
   shape.x1 - FOCUS_BORDER_WIDTH / 2, shape.y1 - FOCUS_BORDER_WIDTH / 2, shape.radii⟩

-- `render_node` (src/render.rs lines 56-127): depth-first paint of a
-- node and, for element nodes, its children.  The list of emitted
-- commands models the calls made on the scene builder in order;
-- `none` models any of the source's panics (`unwrap` on missing
-- layout/colour translation, panicking resolve).
mutual
def renderNode (viewport_size : ViewportSize) (location : Point) : Node → Option (List PaintCommand)
  | .node d children => do
    let layout := d.layout
    let pos : Point := ⟨location.x + layout.location.x, location.y + layout.location.y⟩
    match d.kind with
    | .text contents => do
      let text_color ← translateColor d.forground
      let font_size : ℚ := 16
      pure [.textCmd font_size text_color ⟨pos.x, pos.y + font_size⟩ contents]
    | .placeholder => pure []
    | .element => do
      let shape ← getShape layout d viewport_size pos
      let fill_color ← translateColor d.background
      let own ←
        if d.focused then do
          let stroke_width := FOCUS_BORDER_WIDTH / 2
          let smaller_shape := focusInnerShape shape
          pure [PaintCommand.strokeCmd stroke_width Color.whiteColor shape,
                PaintCommand.strokeCmd stroke_width Color.blackColor shape,
                PaintCommand.fillCmd fill_color smaller_shape]
        else do
          let stroke_color ← translateColor d.border.colors.top
          let font_size := d.font.size
          let stroke_width ← d.border.width.top.resolve
            (axisSize Axis.Min layout.size) font_size viewport_size
          pure [PaintCommand.strokeCmd stroke_width stroke_color shape,
                PaintCommand.fillCmd fill_color shape]
      let rest ← renderChildren viewport_size pos children
      pure (own ++ rest)

def renderChildren (viewport_size : ViewportSize) (pos : Point) :
    List Node → Option (List PaintCommand)
  | [] => some []
  | c :: cs => do
    let r ← renderNode viewport_size pos c
    let rs ← renderChildren viewport_size pos cs
    pure (r ++ rs)
end

/-- Concrete fixture: a uniform `10px` border with square corners and
black edge colours. -/
def borderPx10 : Border :=
  ⟨⟨.length (.value (.Px 10)), .length (.value (.Px 10)),
    .length (.value (.Px 10)), .length (.value (.Px 10))⟩,
   ⟨.rgba 0 0 0 255, .rgba 0 0 0 255, .rgba 0 0 0 255, .rgba 0 0 0 255⟩,
   ⟨.dimension (.Px 0), .dimension (.Px 0), .dimension (.Px 0), .dimension (.Px 0)⟩⟩

/-- Concrete fixture: an unfocused 100×100 element node at the origin
with the uniform 10px border. -/
def nodePlain : NodeData :=
  ⟨.element, ⟨⟨0, 0⟩, ⟨100, 100⟩⟩, false, .rgba 0 0 0 255, .rgba 0 0 0 255,
   borderPx10, Font.default⟩

/-- Concrete fixture: a focused 100×100 element node at the origin with
a green background. -/
def nodeFocused : NodeData :=
  ⟨.element, ⟨⟨0, 0⟩, ⟨100, 100⟩⟩, true, .rgba 0 128 0 255, .rgba 0 0 0 255,
   borderPx10, Font.default⟩

/-! ## Theorems -/

/-- Helper: parse result of `"2em"`. -/
theorem parseString_2em :
    font.FontSize.parseString "2em" = some (.length (.dimension (.Em 2))) := rfl

/-- Helper: parse result of `"50%"`. -/
theorem parseString_50pct :
    font.FontSize.parseString "50%" = some (.length (.percentage (50 / 100))) := rfl

/-- Helper: parse result of `"2rem"`. -/
theorem parseString_2rem :
    font.FontSize.parseString "2rem" = some (.length (.dimension (.Rem 2))) := rfl

/-- Helper: parse result of `"16px"`. -/
theorem parseString_16px :
    font.FontSize.parseString "16px" = some (.length (.dimension (.Px 16))) := rfl

/-- Helper: parse result of `"16.0px"` — syntactically different from
`"16px"` but the same number. -/
theorem parseString_16_0px :
    font.FontSize.parseString "16.0px" =
      some (.length (.dimension (.Px ((16 : ℚ) + (0 : ℚ) / (10 : ℚ) ^ 1)))) := rfl

/-- Helper: `"not-a-size"` fails to parse. -/
theorem parseString_not_a_size : font.FontSize.parseString "not-a-size" = none := rfl

/-- Helper: the change-reporting tail of `FontSize::reduce` returns
`true` exactly when the stored value is replaced by a different
number. -/
theorem reduce_if_change (self st : FontSize) (b : Bool) (n : ℚ)
    (h : (if self.v ≠ n then some ((⟨n⟩ : FontSize), true) else some (self, false)) =
      some (st, b)) :
    b = true ↔ st.v ≠ self.v := by
  by_cases hc : self.v = n
  · simp [hc] at h
    rcases h with ⟨h1, h2⟩
    simp [← h1, ← h2]
  · simp [hc] at h
    rcases h with ⟨h1, h2⟩
    subst h1
    simp [← h2]
    exact fun hh => hc hh.symm

/-- C10: resolving a `Min` or `Max` calc function with an empty
argument list is a fatal error (the `unwrap` of a `None` minimum /
maximum), modelled as `none`; no default value is returned. -/
theorem resolve_min_max_empty_panics (container_size : ℚ) (font_size : ComputedFontSize)
    (viewport_size : ViewportSize) :
    MathFunLength.resolve (.minF []) container_size font_size viewport_size = none ∧
    MathFunLength.resolve (.maxF []) container_size font_size viewport_size = none := by
  constructor <;> rfl

/-- C4: for all length expressions and every resolution context,
`resolve(Clamp(mn, val, mx)) = max(resolve(mn), min(resolve(val),
resolve(mx)))`, and whenever `resolve(mn) > resolve(mx)` the result is
`resolve(mn)`, independent of `val`. -/
theorem resolve_clamp_eq (mn val mx : CalcLength) (container_size : ℚ)
    (font_size : ComputedFontSize) (viewport_size : ViewportSize) (a b c : ℚ)
    (hmn : mn.resolve container_size font_size viewport_size = some a)
    (hval : val.resolve container_size font_size viewport_size = some b)
    (hmx : mx.resolve container_size font_size viewport_size = some c) :
    MathFunLength.resolve (.clamp mn val mx) container_size font_size viewport_size =
      some (max a (min b c)) ∧
    (c < a →
      MathFunLength.resolve (.clamp mn val mx) container_size font_size viewport_size =
        some a) := by
  constructor
  · simp [MathFunLength.resolve, hmn, hval, hmx]
  · intro hlt
    have : max a (min b c) = a := max_eq_left ((min_le_right b c).trans hlt.le)
    simp [MathFunLength.resolve, hmn, hval, hmx, this]

/-- Witness for C4: `clamp(5, 100, 3)` resolves to `5` (the minimum
bound wins when it exceeds the maximum bound). -/
theorem resolve_clamp_eq_witness :
    MathFunLength.resolve (.clamp (.number 5) (.number 100) (.number 3)) 0 ⟨16⟩ ⟨100, 100⟩ =
      some 5 :=
  (resolve_clamp_eq (.number 5) (.number 100) (.number 3) 0 ⟨16⟩ ⟨100, 100⟩ 5 100 3
    rfl rfl rfl).2 (by norm_num)

/-- C5: in the font-size cascade, with the root resolved at 16, a node
with `font-size: 2em` resolves to 32, and its child with
`font-size: 50%` resolves to 16 (50% of the parent's 32). -/
theorem font_size_cascade_chain :
    FontSize.reduce FontSize.default (some (.text "2em")) (some ⟨16⟩) = some (⟨32⟩, true) ∧
    FontSize.reduce FontSize.default (some (.text "50%")) (some ⟨32⟩) = some (⟨16⟩, false) := by
  constructor
  · norm_num [FontSize.reduce, OwnedAttributeValue.asText, parseString_2em, FontSize.default]
  · norm_num [FontSize.reduce, OwnedAttributeValue.asText, parseString_50pct, FontSize.default]

/-- C9: with no `font-size` attribute (or a non-text value),
`FontSize::reduce` returns `false` and leaves the stored size
unchanged, independently of the parent's resolved size; the initial
default is 16. -/
theorem font_size_reduce_absent_attr (self : FontSize) (p q : Option FontSize) :
    FontSize.reduce self none p = some (self, false) ∧
    FontSize.reduce self (some .nonText) p = some (self, false) ∧
    FontSize.reduce self none p = FontSize.reduce self none q ∧
    FontSize.reduce self (some .nonText) p = FontSize.reduce self (some .nonText) q ∧
    FontSize.default.v = 16 :=
  ⟨rfl, rfl, rfl, rfl, rfl⟩

/-- C6: `FontSize::reduce` reports "no change" when the attribute value
fails to parse (retaining the stored size), depends on the attribute
text only through its parse result (so syntactically different texts
that parse to the same number behave identically), and reports `true`
exactly when the stored value is replaced by a different number. -/
theorem font_size_reduce_change_reporting (self : FontSize) (s : String) (p : Option FontSize) :
    (font.FontSize.parseString s = none →
      FontSize.reduce self (some (.text s)) p = some (self, false)) ∧
    (∀ s2, font.FontSize.parseString s2 = font.FontSize.parseString s →
      FontSize.reduce self (some (.text s2)) p = FontSize.reduce self (some (.text s)) p) ∧
    (∀ st b, FontSize.reduce self (some (.text s)) p = some (st, b) →
      (b = true ↔ st.v ≠ self.v)) := by
  refine ⟨?_, ?_, ?_⟩
  · intro h
    simp only [FontSize.reduce, OwnedAttributeValue.asText, h]
  · intro s2 h
    simp only [FontSize.reduce, OwnedAttributeValue.asText, h]
  · intro st b h
    simp only [FontSize.reduce, OwnedAttributeValue.asText] at h
    rcases hp : font.FontSize.parseString s with _ | fs
    · rw [hp] at h
      simp at h
      rcases h with ⟨h1, h2⟩
      subst h1; subst h2
      simp
    · rw [hp] at h
      rcases fs with lp | a | r
      · rcases lp with l | pct | c
        · rcases l with v | v | v | v | v | v | v
          · exact reduce_if_change _ _ _ _ h
          · exact Option.noConfusion h
          · exact Option.noConfusion h
          · exact Option.noConfusion h
          · exact Option.noConfusion h
          · exact reduce_if_change _ _ _ _ h
          · exact reduce_if_change _ _ _ _ h
        · exact reduce_if_change _ _ _ _ h
        · exact Option.noConfusion h
      · exact reduce_if_change _ _ _ _ h
      · exact reduce_if_change _ _ _ _ h

/-- Witness for C6: an unparseable value reports no change with the
stored size retained, and `"16.0px"` behaves exactly as `"16px"`. -/
theorem font_size_reduce_change_reporting_witness :
    (font.FontSize.parseString "not-a-size" = none ∧
      FontSize.reduce ⟨16⟩ (some (.text "not-a-size")) none = some (⟨16⟩, false)) ∧
    FontSize.reduce ⟨16⟩ (some (.text "16.0px")) none =
      FontSize.reduce ⟨16⟩ (some (.text "16px")) none := by
  refine ⟨⟨rfl, (font_size_reduce_change_reporting ⟨16⟩ "not-a-size" none).1 rfl⟩,
    (font_size_reduce_change_reporting ⟨16⟩ "16px" none).2.1 "16.0px" ?_⟩
  rw [parseString_16_0px, parseString_16px]
  norm_num

/-- Counterexample to C2 as stated: the cascade path
(`FontSize::reduce`) resolves `2rem` to `32 = 2 × 16` even though the
computed font size passed in is `10` (the claim predicts `20`), while
the unit-resolution path used by geometry resolves `Rem 2` to
`20 = 2 × 10` with font size `10` (the claim predicts the hardcoded
`32`). -/
theorem rem_divergence_cex :
    FontSize.reduce ⟨99⟩ (some (.text "2rem")) (some ⟨10⟩) = some (⟨32⟩, true) ∧
    LengthValue.resolve (.Rem 2) 0 ⟨10⟩ ⟨100, 100⟩ = 20 ∧
    (32 : ℚ) ≠ 2 * 10 ∧ (20 : ℚ) ≠ 2 * 16 := by
  refine ⟨?_, ?_, by norm_num, by norm_num⟩
  · norm_num [FontSize.reduce, OwnedAttributeValue.asText, parseString_2rem]
  · norm_num [LengthValue.resolve]

/-- C2 (amended): for every rem value `v`, the font-size cascade path
resolves it to `v × 16` (hardcoded root size), independent of the font
size passed in, while the unit-resolution path used by `get_shape` for
border widths and corner radii resolves it to `v ×` the computed font
size passed in as argument — the divergence is exactly reversed from
the claim. -/
theorem rem_divergence_amended (v parentV selfv : ℚ) (s : String)
    (hs : font.FontSize.parseString s = some (.length (.dimension (.Rem v)))) :
    FontSize.reduce ⟨selfv⟩ (some (.text s)) (some ⟨parentV⟩) =
      (if selfv ≠ v * 16 then some (⟨v * 16⟩, true) else some (⟨selfv⟩, false)) ∧
    (∀ (cs : ℚ) (fs : ComputedFontSize) (vp : ViewportSize),
      LengthValue.resolve (.Rem v) cs fs vp = v * fs.v) ∧
    (∀ (cs : ℚ) (fs : ComputedFontSize) (vp : ViewportSize),
      BorderSideWidth.resolve (.length (.value (.Rem v))) cs fs vp = some (v * fs.v)) ∧
    (∀ (cs : ℚ) (fs : ComputedFontSize) (vp : ViewportSize),
      LengthPercentage.resolve (.dimension (.Rem v)) cs fs vp = some (v * fs.v)) := by
  refine ⟨?_, fun cs fs vp => rfl, fun cs fs vp => rfl, fun cs fs vp => rfl⟩
  simp only [FontSize.reduce, OwnedAttributeValue.asText, hs]

/-- Witness for the amended C2: `2rem` with stored 99 and parent 10
gives `32` in the cascade, and `Rem 2` resolves to `20` with font size
10 in the unit-resolution path. -/
theorem rem_divergence_amended_witness :
    FontSize.reduce ⟨99⟩ (some (.text "2rem")) (some ⟨10⟩) = some (⟨2 * 16⟩, true) ∧
    LengthValue.resolve (.Rem 2) 0 ⟨10⟩ ⟨100, 100⟩ = 2 * 10 := by
  have h := rem_divergence_amended 2 10 99 "2rem" parseString_2rem
  refine ⟨?_, h.2.1 0 ⟨10⟩ ⟨100, 100⟩⟩
  rw [h.1]
  norm_num

/-- C1: every watched attribute of the Font pass reaches the
`unreachable!()` arm of the attribute-name dispatch — the dispatch has
no handled arms at all, so `Font::pass` panics (internal-consistency
error) on any node carrying a watched attribute, instead of parsing
and assigning the corresponding sub-field. -/
theorem font_pass_watched_attr_fatal (self : Font) (tag ns : Option String)
    (name : String) (v : OwnedAttributeValue) (rest : List (String × OwnedAttributeValue))
    (_hname : name ∈ Font.watchedAttrs) :
    Font.pass self tag ns (some ((name, v) :: rest)) = .error .internalConsistency := by
  cases tag <;> cases ns <;>
    simp [Font.pass, Font.applyAttrs, Option.isNone, bind, Except.bind]

/-- Witness for C1: an element with attribute `font-size="16px"` — a
watched attribute — makes `Font::pass` hit the fatal branch. -/
theorem font_pass_watched_attr_fatal_witness :
    ("font-size" ∈ Font.watchedAttrs) ∧
    Font.pass Font.default (some "div") none (some [("font-size", .text "16px")]) =
      .error .internalConsistency :=
  ⟨by simp [Font.watchedAttrs],
   font_pass_watched_attr_fatal Font.default (some "div") none "font-size" (.text "16px") []
     (by simp [Font.watchedAttrs])⟩

/-- C3: a `del` element with attribute
`text-decoration-line="underline"` ends the TextDecoration pass with
`line = underline`: the tag heuristic sets line-through first, then the
parsed attribute value overwrites the line field — the attribute wins. -/
theorem text_decoration_del_attr_wins (self : TextDecoration) :
    ∃ rec changed,
      TextDecoration.pass self (some "del") none
        (some [("text-decoration-line", .text "underline")]) = .ok (rec, changed) ∧
      rec.line = TextDecorationLine.underlineFlag := by
  have key : TextDecoration.pass self (some "del") none
      (some [("text-decoration-line", .text "underline")]) =
      (if TextDecoration.beqRec ⟨⟨true, false, false⟩, .auto, .solid, .currentColor⟩ self = false
       then Except.ok (⟨⟨true, false, false⟩, .auto, .solid, .currentColor⟩, true)
       else Except.ok (self, false)) := by
    simp [TextDecoration.pass, TextDecoration.applyAttrs, TextDecoration.applyAttr,
      parseTextDecorationLine, TextDecoration.default, TextDecorationLine.insert,
      TextDecorationLine.underlineFlag, bind, Except.bind, pure, Except.pure]
  by_cases hb : TextDecoration.beqRec
      ⟨⟨true, false, false⟩, .auto, .solid, .currentColor⟩ self = true
  · refine ⟨self, false, ?_, ?_⟩
    · rw [key, hb]; simp
    · have h2 := hb
      simp only [TextDecoration.beqRec, Bool.and_eq_true, beq_iff_eq] at h2
      show self.line = ⟨true, false, false⟩
      symm
      tauto
  · have hb2 : TextDecoration.beqRec
        ⟨⟨true, false, false⟩, .auto, .solid, .currentColor⟩ self = false := by
      revert hb
      cases TextDecoration.beqRec ⟨⟨true, false, false⟩, .auto, .solid, .currentColor⟩ self <;>
        simp
    exact ⟨⟨⟨true, false, false⟩, .auto, .solid, .currentColor⟩, true, by rw [key, hb2]; simp, rfl⟩

/-- C8: for an unfocused node, `get_shape` insets the layout box by
half the resolved border width per edge (left/top move the starting
corner, right/bottom move the ending corner), with each corner radius
resolved against the minimum box axis. -/
theorem get_shape_half_border_inset (d : NodeData) (vp : ViewportSize) (loc : Point)
    (wl wr wt wb rtl rtr rbr rbl : ℚ)
    (hf : d.focused = false)
    (hl : d.border.width.left.resolve (axisSize .Min d.layout.size) d.font.size vp = some wl)
    (hr : d.border.width.right.resolve (axisSize .Min d.layout.size) d.font.size vp = some wr)
    (ht : d.border.width.top.resolve (axisSize .Min d.layout.size) d.font.size vp = some wt)
    (hb : d.border.width.bottom.resolve (axisSize .Min d.layout.size) d.font.size vp = some wb)
    (h1 : d.border.radius.top_left.resolve (axisSize .Min d.layout.size) d.font.size vp = some rtl)
    (h2 : d.border.radius.top_right.resolve (axisSize .Min d.layout.size) d.font.size vp = some rtr)
    (h3 : d.border.radius.bottom_right.resolve (axisSize .Min d.layout.size) d.font.size vp = some rbr)
    (h4 : d.border.radius.bottom_left.resolve (axisSize .Min d.layout.size) d.font.size vp = some rbl) :
    getShape d.layout d vp loc =
      some ⟨loc.x + wl / 2, loc.y + wt / 2,
            loc.x + d.layout.size.width - wr / 2, loc.y + d.layout.size.height - wb / 2,
            ⟨rtl, rtr, rbr, rbl⟩⟩ := by
  simp [getShape, hf, hl, hr, ht, hb, h1, h2, h3, h4, bind, Option.bind]

/-- Witness for C8: a 100×100 box with every border width 10 yields the
rounded rect from (5,5) to (95,95) in local coordinates. -/
theorem get_shape_half_border_inset_witness :
    getShape nodePlain.layout nodePlain ⟨800, 600⟩ ⟨0, 0⟩ =
      some ⟨5, 5, 95, 95, ⟨0, 0, 0, 0⟩⟩ := by
  have h := get_shape_half_border_inset nodePlain ⟨800, 600⟩ ⟨0, 0⟩
    10 10 10 10 0 0 0 0 rfl rfl rfl rfl rfl rfl rfl rfl rfl
  rw [h]
  norm_num [nodePlain]

/-- Counterexample to C7 as stated: for a concrete focused element, the
second emitted command is a black stroke of the *full-size* shape, not
of the rounded rect inset by half the focus border width — the inset
rect receives only the fill. -/
theorem render_focused_cex :
    renderNode ⟨800, 600⟩ ⟨0, 0⟩ (.node nodeFocused []) =
      some [.strokeCmd 3 Color.whiteColor ⟨3, 3, 97, 97, ⟨0, 0, 0, 0⟩⟩,
            .strokeCmd 3 Color.blackColor ⟨3, 3, 97, 97, ⟨0, 0, 0, 0⟩⟩,
            .fillCmd ⟨0, 128 / 255, 0, 1⟩ ⟨6, 6, 94, 94, ⟨0, 0, 0, 0⟩⟩] ∧
    (⟨3, 3, 97, 97, ⟨0, 0, 0, 0⟩⟩ : RRect) ≠ ⟨6, 6, 94, 94, ⟨0, 0, 0, 0⟩⟩ := by
  constructor
  · norm_num [renderNode, renderChildren, getShape, translateColor, focusInnerShape,
      FOCUS_BORDER_WIDTH, nodeFocused, borderPx10, Color.whiteColor, Color.blackColor,
      LengthPercentage.resolve, LengthValue.resolve, BorderSideWidth.resolve, Length.resolve,
      axisSize, bind, Option.bind]
  · intro h
    have := congrArg RRect.x0 h
    norm_num at this

/-- C7 (amended): for a focused element node, the paint walker emits
exactly two stroke calls and one fill call, in this order: a
fixed-width white stroke over the element's full geometry, a black
stroke over that same full geometry, and a fill of the rounded rect
inset by half the focus border width with the element's background
colour. -/
theorem render_focused_amended (vp : ViewportSize) (loc : Point) (d : NodeData) (sh : RRect)
    (fc : Color) (hk : d.kind = .element) (hf : d.focused = true)
    (hs : getShape d.layout d vp ⟨loc.x + d.layout.location.x, loc.y + d.layout.location.y⟩ =
      some sh)
    (hc : translateColor d.background = some fc) :
    renderNode vp loc (.node d []) =
      some [.strokeCmd (FOCUS_BORDER_WIDTH / 2) Color.whiteColor sh,
            .strokeCmd (FOCUS_BORDER_WIDTH / 2) Color.blackColor sh,
            .fillCmd fc (focusInnerShape sh)] := by
  simp [renderNode, renderChildren, hk, hf, hs, hc, bind, Option.bind]

/-- Witness for the amended C7: the concrete focused element emits the
white full-geometry stroke, the black full-geometry stroke, and the
inset background fill, in order. -/
theorem render_focused_amended_witness :
    renderNode ⟨800, 600⟩ ⟨0, 0⟩ (.node nodeFocused []) =
      some [.strokeCmd (FOCUS_BORDER_WIDTH / 2) Color.whiteColor ⟨3, 3, 97, 97, ⟨0, 0, 0, 0⟩⟩,
            .strokeCmd (FOCUS_BORDER_WIDTH / 2) Color.blackColor ⟨3, 3, 97, 97, ⟨0, 0, 0, 0⟩⟩,
            .fillCmd ⟨0, 128 / 255, 0, 1⟩
              (focusInnerShape ⟨3, 3, 97, 97, ⟨0, 0, 0, 0⟩⟩)] :=
  render_focused_amended ⟨800, 600⟩ ⟨0, 0⟩ nodeFocused ⟨3, 3, 97, 97, ⟨0, 0, 0, 0⟩⟩
    ⟨0, 128 / 255, 0, 1⟩ rfl rfl
    (by norm_num [getShape, nodeFocused, borderPx10, FOCUS_BORDER_WIDTH,
      LengthPercentage.resolve, LengthValue.resolve, bind, Option.bind])
    (by norm_num [translateColor, nodeFocused])

end Blitz
